import Mathlib

/-!
Verification development for the `home` repository.

The embedding models the two executable pieces the specification talks
about:

* `sw.js` — the service worker: request classification (fetch listener and
  `handleRequest`), the three fetch strategies, the background refresh, the
  offline fallback, the install and activate event handlers, over an explicit
  cache-registry state.
* `push_friend_link.js` (the Cloudflare-worker relay): the `fetch` handler
  forwarding a friend-link submission to Telegram or Feishu.

JavaScript strings are Lean `String`s; JS `includes`/`endsWith` are embedded
as character-list scans; a JS `Response` is a `Resp` (status and body — the
claims never inspect headers); the browser cache storage is an association
list from cache name to a store of key/response pairs, searched in order,
which mirrors the Cache API's `caches.match` search over caches in creation
order; network outcomes are an explicit oracle (`NetOutcome`), with a fetch
abort caused by the timeout controller represented by `NetOutcome.timeout`
(the strategy code observes it as a rejected fetch, exactly as in the
source).
-/

/-- JS `String.prototype.startsWith` on character lists: `startsWithChars p s`
is true when `p` is an initial segment of `s`. -/
def startsWithChars : List Char → List Char → Bool
  | [], _ => true
  | _ :: _, [] => false
  | p :: ps, c :: cs => p == c && startsWithChars ps cs

/-- Scan for JS `String.prototype.includes`: does the pattern occur as a
contiguous segment anywhere in the list? -/
def includesChars (pat : List Char) : List Char → Bool
  | [] => pat.isEmpty
  | c :: cs => startsWithChars pat (c :: cs) || includesChars pat cs

/-- JS `url.includes(pattern)` as used by `isAPIRequest` / `isCDNRequest`. -/
def strIncludes (s pat : String) : Bool := includesChars pat.data s.data

/-- JS `url.endsWith(asset)` as used by `isStaticAsset`. -/
def strEndsWith (s pat : String) : Bool :=
  startsWithChars pat.data.reverse s.data.reverse

/-- A response snapshot: HTTP status and body (headers are elided; no claim
inspects them). -/
structure Resp where
  status : Nat
  body : String
deriving DecidableEq, Repr

/-- JS `response.ok`: status in the 2xx range. -/
def Resp.ok (r : Resp) : Bool :=
  decide (200 ≤ r.status) && decide (r.status ≤ 299)

/-- One named cache: stored (request-key, response) pairs. -/
abbrev Store := List (String × Resp)

/-- `cache.match(key)` inside a single cache: first entry for the key. -/
def Store.matchKey (s : Store) (k : String) : Option Resp :=
  (s.find? (fun e => e.1 == k)).map (fun e => e.2)

/-- The browser cache storage: caches in creation order, each with a name. -/
abbrev Registry := List (String × Store)

/-- `caches.open(name)`: idempotent, creates an empty cache if absent. -/
def cachesOpen (reg : Registry) (name : String) : Registry :=
  if reg.any (fun c => c.1 == name) then reg else reg ++ [(name, [])]

/-- `cache.put(key, r)`: overwrite the entry for `key`, append if new. -/
def storePut (s : Store) (k : String) (r : Resp) : Store :=
  if s.any (fun e => e.1 == k) then
    s.map (fun e => if e.1 == k then (k, r) else e)
  else s ++ [(k, r)]

/-- `caches.open(name)` followed by `cache.put(key, r)` on the opened cache,
the write pattern every strategy in `sw.js` uses. -/
def cachePut (reg : Registry) (name k : String) (r : Resp) : Registry :=
  (cachesOpen reg name).map
    (fun c => if c.1 == name then (c.1, storePut c.2 k r) else c)

/-- Global `caches.match(key)`: searches every cache, in creation order, and
returns the first hit — this is the lookup `sw.js` actually performs in all
of its fallback paths. -/
def cachesMatch : Registry → String → Option Resp
  | [], _ => none
  | c :: rest, k =>
    match c.2.matchKey k with
    | some r => some r
    | none => cachesMatch rest k

/-- A per-generation lookup (`caches.open(name)` then `cache.match(key)`):
the lookup the specification prescribes, stated for comparison with
`cachesMatch`. -/
def cacheMatchIn (reg : Registry) (name k : String) : Option Resp :=
  match reg.find? (fun c => c.1 == name) with
  | some c => c.2.matchKey k
  | none => none

/-! ### Constants of `sw.js` -/

def CACHE_NAME : String := "deer-homepage-v2.0.0"

def STATIC_CACHE : String := "static-v2.0.0"

def DYNAMIC_CACHE : String := "dynamic-v2.0.0"

def API_CACHE : String := "api-v2.0.0"

/-- The declared static-asset manifest (`STATIC_ASSETS` in `sw.js`). -/
def STATIC_ASSETS : List String :=
  ["/",
   "/index.html",
   "/assets/css/style.css",
   "/assets/js/app.js",
   "/assets/js/main.js",
   "/assets/js/modules/config.js",
   "/assets/js/modules/utils.js",
   "/assets/js/modules/background.js",
   "/assets/js/modules/api.js",
   "/assets/js/modules/ui.js",
   "/assets/img/logo-optimized.png",
   "/assets/img/favicon.ico",
   "/assets/img/mouse.png",
   "/assets/fonts/AlimamaDaoLiTi-Regular.woff2",
   "/assets/sounds/click-blank.wav",
   "/assets/sounds/click-btn.wav",
   "/assets/sounds/click-back.wav",
   "/manifest.json"]

/-- The declared remote-API URL patterns (`NETWORK_FIRST` in `sw.js`). -/
def NETWORK_FIRST : List String :=
  ["https://v1.hitokoto.cn/",
   "https://api.uomg.com/",
   "https://bing.img.run/",
   "https://api.dujin.org/",
   "https://home-push-friend-link.952780.xyz/"]

/-- The declared CDN URL patterns (`CACHE_FIRST` in `sw.js`). -/
def CACHE_FIRST : List String :=
  ["https://cdnjs.cloudflare.com/",
   "https://cdn.jsdelivr.net/",
   "https://unpkg.com/"]

/-- `isAPIRequest(url)`: some `NETWORK_FIRST` pattern occurs in the URL. -/
def isAPIRequest (url : String) : Bool :=
  NETWORK_FIRST.any (fun pattern => strIncludes url pattern)

/-- `isCDNRequest(url)`: some `CACHE_FIRST` pattern occurs in the URL. -/
def isCDNRequest (url : String) : Bool :=
  CACHE_FIRST.any (fun pattern => strIncludes url pattern)

/-- `isStaticAsset(url)`: the full URL string ends with a manifest entry. -/
def isStaticAsset (url : String) : Bool :=
  STATIC_ASSETS.any (fun asset => strEndsWith url asset)

/-- The parts of a fetch-event request the worker reads: the URL string, the
method, the destination, and the scheme that `new URL(request.url).protocol`
yields. -/
structure Request where
  url : String
  method : String
  destination : String
  protocol : String
deriving DecidableEq, Repr

/-- The routing outcome of the fetch listener plus `handleRequest`'s
dispatch: either the worker does not respond at all (`bypass`) or one of the
five strategy invocations. -/
inductive Tier
  | bypass
  | apiNetworkFirst
  | cdnCacheFirst
  | staticCacheFirst
  | documentNetworkFirst
  | dynamicCacheFirst
deriving DecidableEq, Repr

/-- The classification the source performs: the fetch listener's two early
returns (non-GET, chrome-extension scheme) followed by `handleRequest`'s
dispatch chain, in source order. -/
def classify (r : Request) : Tier :=
  if r.method != "GET" then Tier.bypass
  else if r.protocol == "chrome-extension:" then Tier.bypass
  else if isAPIRequest r.url then Tier.apiNetworkFirst
  else if isCDNRequest r.url then Tier.cdnCacheFirst
  else if isStaticAsset r.url then Tier.staticCacheFirst
  else if r.destination == "document" then Tier.documentNetworkFirst
  else Tier.dynamicCacheFirst

/-! ### Fetch strategies -/

/-- The outcome of one network fetch in a strategy invocation: a response,
a rejection, or an abort raised by the timeout controller (which the
strategy's `catch` observes exactly like a rejection). -/
inductive NetOutcome
  | success (r : Resp)
  | failure
  | timeout
deriving DecidableEq, Repr

/-- `networkFirstWithTimeout(request, cacheName, timeout)`: on a response,
store a clone when `response.ok` and return it; on rejection or abort, fall
back to the global `caches.match(request)`; rethrow (`none`) when that also
misses. Returns the value (`none` = the function throws) and the registry
after any write. -/
def networkFirstWithTimeout (net : NetOutcome) (reg : Registry)
    (cacheName key : String) : Option Resp × Registry :=
  match net with
  | NetOutcome.success resp =>
    if resp.ok then (some resp, cachePut reg cacheName key resp)
    else (some resp, reg)
  | _ =>
    match cachesMatch reg key with
    | some cached => (some cached, reg)
    | none => (none, reg)

/-- `updateCacheInBackground(request, cacheName)`: fire-and-forget refetch;
store the response only when `response.ok`; swallow failures. -/
def updateCacheInBackground (net : NetOutcome) (reg : Registry)
    (cacheName key : String) : Registry :=
  match net with
  | NetOutcome.success resp =>
    if resp.ok then cachePut reg cacheName key resp else reg
  | _ => reg

/-- `cacheFirstWithNetworkFallback(request, cacheName)`: on a global
`caches.match` hit, kick off the background refresh and return the cached
copy; on a miss, fetch, store when `response.ok`, and return; rethrow
(`none`) when the network also fails. -/
def cacheFirstWithNetworkFallback (net : NetOutcome) (reg : Registry)
    (cacheName key : String) : Option Resp × Registry :=
  match cachesMatch reg key with
  | some cached => (some cached, updateCacheInBackground net reg cacheName key)
  | none =>
    match net with
    | NetOutcome.success resp =>
      if resp.ok then (some resp, cachePut reg cacheName key resp)
      else (some resp, reg)
    | _ => (none, reg)

/-- `networkFirstWithCacheFallback(request, cacheName)`: fetch first (no
timeout); store when `response.ok` and return; on rejection fall back to the
global `caches.match`; rethrow (`none`) when that also misses. -/
def networkFirstWithCacheFallback (net : NetOutcome) (reg : Registry)
    (cacheName key : String) : Option Resp × Registry :=
  match net with
  | NetOutcome.success resp =>
    if resp.ok then (some resp, cachePut reg cacheName key resp)
    else (some resp, reg)
  | _ =>
    match cachesMatch reg key with
    | some cached => (some cached, reg)
    | none => (none, reg)

/-! ### Offline fallback and `handleRequest` -/

/-- The body of the inline offline page `getOfflineFallback` builds (brace
characters written as escapes). -/
def offlineHtml : String :=
  "<!DOCTYPE html>\n        <html>\n        <head>\n            <title>离线模式</title>\n            <meta charset=\"utf-8\">\n            <style>\n                body \x7b \n                    font-family: Arial, sans-serif; \n                    text-align: center; \n                    padding: 50px; \n                    background: #121212; \n                    color: #fff; \n                \x7d\n                .offline \x7b \n                    max-width: 400px; \n                    margin: 0 auto; \n                \x7d\n            </style>\n        </head>\n        <body>\n            <div class=\"offline\">\n                <h1>🔌 离线模式</h1>\n                <p>当前网络不可用，请检查网络连接后重试。</p>\n                <button onclick=\"location.reload()\">重新加载</button>\n            </div>\n        </body>\n        </html>"

/-- The `new Response(html, ...)` the offline fallback returns: status 200
with the inline HTML body. -/
def offlinePage : Resp := { status := 200, body := offlineHtml }

/-- `getOfflineFallback(request)`: for a document destination, try the
global `caches.match('/')`; otherwise (or when that misses) return the
inline offline page. -/
def getOfflineFallback (reg : Registry) (r : Request) : Resp :=
  if r.destination == "document" then
    match cachesMatch reg "/" with
    | some cachedIndex => cachedIndex
    | none => offlinePage
  else offlinePage

/-- The `try`/`catch` of `handleRequest`: a strategy value is returned as
is; a strategy throw is answered by `getOfflineFallback` over the registry
the strategy left behind. -/
def respondOrFallback (r : Request) (p : Option Resp × Registry) :
    Resp × Registry :=
  match p with
  | (some resp, regAfter) => (resp, regAfter)
  | (none, regAfter) => (getOfflineFallback regAfter r, regAfter)

/-- `handleRequest(request)`: the dispatch chain of `sw.js` lines 126–157,
with the surrounding `try`/`catch` turning a strategy throw into
`getOfflineFallback`. -/
def handleRequest (net : NetOutcome) (reg : Registry) (r : Request) :
    Resp × Registry :=
  respondOrFallback r
    (if isAPIRequest r.url then
      networkFirstWithTimeout net reg API_CACHE r.url
    else if isCDNRequest r.url then
      cacheFirstWithNetworkFallback net reg DYNAMIC_CACHE r.url
    else if isStaticAsset r.url then
      cacheFirstWithNetworkFallback net reg STATIC_CACHE r.url
    else if r.destination == "document" then
      networkFirstWithCacheFallback net reg STATIC_CACHE r.url
    else
      cacheFirstWithNetworkFallback net reg DYNAMIC_CACHE r.url)

/-! ### Install and activate events -/

/-- `cache.addAll(manifest)` over per-asset fetch outcomes: the batch is
all-or-nothing, as the Cache API specifies — it rejects when any asset's
fetch rejects or yields a non-ok response, and then adds nothing. -/
def addAllEntries : List (String × NetOutcome) → Option Store
  | [] => some []
  | (asset, NetOutcome.success resp) :: rest =>
    if resp.ok then (addAllEntries rest).map (fun s => (asset, resp) :: s)
    else none
  | (_, NetOutcome.failure) :: _ => none
  | (_, NetOutcome.timeout) :: _ => none

/-- What the install handler's `waitUntil` promise settles to: whether the
install attempt completed successfully and whether `skipWaiting` ran. -/
structure InstallOutcome where
  completed : Bool
  skipWaiting : Bool
deriving DecidableEq, Repr

/-- The `install` listener: `caches.open(STATIC_CACHE)`, then
`cache.addAll(STATIC_ASSETS)`, then `skipWaiting`, with a final `catch` that
only logs — so the `waitUntil` promise resolves (the install completes)
whether or not `addAll` succeeded. -/
def installEvent (fetches : List (String × NetOutcome)) (reg : Registry) :
    InstallOutcome × Registry :=
  match addAllEntries fetches with
  | some entries =>
    ({ completed := true, skipWaiting := true },
      entries.foldl (fun acc e => cachePut acc STATIC_CACHE e.1 e.2)
        (cachesOpen reg STATIC_CACHE))
  | none =>
    ({ completed := true, skipWaiting := false }, cachesOpen reg STATIC_CACHE)

/-- The keep test of the `activate` listener: the three current generation
names survive, everything else is deleted. -/
def isCurrentCache (n : String) : Bool :=
  n == STATIC_CACHE || n == DYNAMIC_CACHE || n == API_CACHE

/-- The cache names the `activate` listener deletes from a given registry. -/
def staleCaches (reg : Registry) : List String :=
  (reg.map (fun c => c.1)).filter (fun n => !isCurrentCache n)

/-- The `activate` listener's effect on the registry: `caches.keys()` then
`caches.delete` on every name that is none of the three current ones. -/
def activateEvent (reg : Registry) : Registry :=
  reg.filter (fun c => isCurrentCache c.1)

/-! ### The friend-link relay (`push_friend_link.js`) -/

/-- The relay's environment bindings; `none` models an unset variable. -/
structure Env where
  TG_BOT_TOKEN : Option String
  TG_CHAT_ID : Option String
  FEISHU_WEBHOOK : Option String
deriving DecidableEq, Repr

/-- JS falsiness of a string-or-undefined value (`!x`): undefined and the
empty string are falsy. -/
def falsy : Option String → Bool
  | none => true
  | some s => s == ""

/-- JS `x || d` for a string-or-undefined `x`. -/
def jsOr (o : Option String) (d : String) : String :=
  match o with
  | some s => if s == "" then d else s
  | none => d

/-- The parsed request body: `request.json()` rejected, or an object with
the five fields the relay destructures (`none` = field absent). -/
inductive BodyData
  | invalid
  | obj (name url logo desc pushType : Option String)
deriving DecidableEq, Repr

/-- The JSON payload of the one outbound `fetch` the relay can issue, kept
structured rather than serialized. -/
inductive PushPayload
  | telegram (chat_id text : String)
  | feishu (msg_type text : String)
deriving DecidableEq, Repr

/-- An outbound request the relay issues. -/
structure Outbound where
  url : String
  method : String
  payload : PushPayload
deriving DecidableEq, Repr

/-- A relay response: status and body (`none` for the `null` body of the
preflight answer; CORS headers are elided). -/
structure RelayResponse where
  status : Nat
  body : Option String
deriving DecidableEq, Repr

/-- The template-literal message the relay formats from the submission. -/
def friendLinkMsg (name url : String) (logo desc : Option String) : String :=
  "【友链申请】\n站点名: " ++ name ++ "\n链接: " ++ url ++ "\nLogo: "
    ++ jsOr logo "无" ++ "\n描述: " ++ jsOr desc "无"

/-- `pre` occurs verbatim inside `s`. -/
def strContains (s sub : String) : Prop :=
  ∃ pre post, s = pre ++ (sub ++ post)

/-- The stored-entry invariant relating a registry before and after one
strategy invocation: every entry afterwards was already present in the
same-named cache, or is a snapshot of a successful (`ok`) response (for
C5). -/
def storedOnlyOk (reg regAfter : Registry) : Prop :=
  ∀ c ∈ regAfter, ∀ e ∈ c.2,
    (∃ c₀, c₀ ∈ reg ∧ c₀.1 = c.1 ∧ e ∈ c₀.2) ∨ e.2.ok = true

/-- The relay's `fetch(request, env)` handler as a function of the method,
the parsed body, the environment, and the provider call's `ok` flag
(irrelevant when no outbound request is made). Returns the relay response
and the list of outbound requests issued. -/
def workerFetch (method : String) (body : BodyData) (env : Env)
    (pushOk : Bool) : RelayResponse × List Outbound :=
  if method == "OPTIONS" then ({ status := 204, body := none }, [])
  else if method != "POST" then
    ({ status := 405, body := some "Method Not Allowed" }, [])
  else
    match body with
    | BodyData.invalid => ({ status := 400, body := some "Invalid JSON" }, [])
    | BodyData.obj name url logo desc pushType =>
      if falsy name || falsy url || falsy pushType then
        ({ status := 400, body := some "Missing required fields" }, [])
      else if pushType == some "telegram" then
        if falsy env.TG_BOT_TOKEN || falsy env.TG_CHAT_ID then
          ({ status := 500, body := some "Telegram配置缺失" }, [])
        else
          (if pushOk then
            { status := 200, body := some "\x7b\"ok\":true\x7d" }
          else { status := 500, body := some "推送失败" },
            [{ url := "https://api.telegram.org/bot"
                  ++ env.TG_BOT_TOKEN.getD "" ++ "/sendMessage",
               method := "POST",
               payload := PushPayload.telegram (env.TG_CHAT_ID.getD "")
                 (friendLinkMsg (name.getD "") (url.getD "") logo desc) }])
      else if pushType == some "feishu" then
        if falsy env.FEISHU_WEBHOOK then
          ({ status := 500, body := some "飞书配置缺失" }, [])
        else
          (if pushOk then
            { status := 200, body := some "\x7b\"ok\":true\x7d" }
          else { status := 500, body := some "推送失败" },
            [{ url := env.FEISHU_WEBHOOK.getD "",
               method := "POST",
               payload := PushPayload.feishu "text"
                 (friendLinkMsg (name.getD "") (url.getD "") logo desc) }])
      else ({ status := 400, body := some "不支持的推送方式" }, [])

/-! ### Claim-side classifier definitions (for C1) -/

/-- The classifier exactly as claim C1 states it: six rules, first match
wins, with no rule for the chrome-extension scheme. -/
def classifyClaimC1 (r : Request) : Tier :=
  if r.method != "GET" then Tier.bypass
  else if isAPIRequest r.url then Tier.apiNetworkFirst
  else if isCDNRequest r.url then Tier.cdnCacheFirst
  else if isStaticAsset r.url then Tier.staticCacheFirst
  else if r.destination == "document" then Tier.documentNetworkFirst
  else Tier.dynamicCacheFirst

/-- The amended claim's classifier: as claim C1, plus the bypass rule for
requests whose URL scheme is `chrome-extension:`, placed right after the
method rule. -/
def classifyAmendedC1 (r : Request) : Tier :=
  if r.method == "GET" then
    if r.protocol == "chrome-extension:" then Tier.bypass
    else if isAPIRequest r.url then Tier.apiNetworkFirst
    else if isCDNRequest r.url then Tier.cdnCacheFirst
    else if isStaticAsset r.url then Tier.staticCacheFirst
    else if r.destination == "document" then Tier.documentNetworkFirst
    else Tier.dynamicCacheFirst
  else Tier.bypass

/-! ### Theorems -/

/-- C1 counterexample: a GET request with the chrome-extension scheme is
bypassed by the source's classifier, while the claim's six rules would send
it to the dynamic cache-first tier. -/
theorem C1_counterexample :
    classify ⟨"chrome-extension://abcd/page.js", "GET", "script",
      "chrome-extension:"⟩ = Tier.bypass ∧
    classifyClaimC1 ⟨"chrome-extension://abcd/page.js", "GET", "script",
      "chrome-extension:"⟩ = Tier.dynamicCacheFirst ∧
    Tier.bypass ≠ Tier.dynamicCacheFirst := by decide

/-- C1 (amended): the classifier applies, in fixed priority order with
first match winning, the bypass rule for non-GET methods, the bypass rule
for the chrome-extension scheme, then the API, CDN, static-asset, document
and dynamic rules, exactly as `classifyAmendedC1` lists them. -/
theorem C1_rules (r : Request) : classify r = classifyAmendedC1 r := by
  unfold classify classifyAmendedC1
  cases h : r.method == "GET" <;> simp [bne, h]

/-- C2 counterexample: with a stale copy of an API key stored only under the
static generation and nothing under the api generation, the API strategy's
cache fallback answers with the static generation's entry. -/
theorem C2_counterexample :
    isAPIRequest "https://v1.hitokoto.cn/" = true ∧
    cacheMatchIn [(STATIC_CACHE, [("https://v1.hitokoto.cn/",
        ⟨200, "stale-static-copy"⟩)])] API_CACHE "https://v1.hitokoto.cn/"
      = none ∧
    (networkFirstWithTimeout NetOutcome.failure
        [(STATIC_CACHE, [("https://v1.hitokoto.cn/",
          ⟨200, "stale-static-copy"⟩)])] API_CACHE
        "https://v1.hitokoto.cn/").1 = some ⟨200, "stale-static-copy"⟩ := by
  decide

/-- C2 (amended): every cache-fallback lookup in the strategies is the
global `caches.match`, searching all generations in order — so on network
failure the returned value is exactly the registry-wide first match,
whatever generation it is stored under, and an API request's fallback can be
answered by an entry of a different generation. -/
theorem C2_match_searches_all_generations (reg : Registry)
    (cacheName key : String) :
    (networkFirstWithTimeout NetOutcome.failure reg cacheName key).1
      = cachesMatch reg key ∧
    (networkFirstWithCacheFallback NetOutcome.failure reg cacheName key).1
      = cachesMatch reg key ∧
    (cacheFirstWithNetworkFallback NetOutcome.failure reg cacheName key).1
      = cachesMatch reg key := by
  refine ⟨?_, ?_, ?_⟩ <;>
    · cases h : cachesMatch reg key <;>
        simp [networkFirstWithTimeout, networkFirstWithCacheFallback,
          cacheFirstWithNetworkFallback, h]

/-- A manifest containing a rejected fetch makes `cache.addAll` reject. -/
theorem addAllEntries_eq_none (fetches : List (String × NetOutcome))
    (asset : String) (h : (asset, NetOutcome.failure) ∈ fetches) :
    addAllEntries fetches = none := by
  induction fetches with
  | nil => cases h
  | cons p rest ih =>
    rcases List.mem_cons.mp h with hp | hmem
    · rw [← hp]
      rfl
    · rcases p with ⟨a, o⟩
      cases o with
      | success r => cases hok : r.ok <;> simp [addAllEntries, hok, ih hmem]
      | failure => rfl
      | timeout => rfl

/-- C3 counterexample: an install whose manifest contains one unreachable
URL still completes successfully (the handler's final `catch` swallows the
`addAll` rejection); it commits zero entries for the attempted generation
and leaves the previously existing generation untouched, but the claim's
"the install attempt does not complete successfully" is false. -/
theorem C3_counterexample :
    (installEvent [("/", NetOutcome.failure)]
        [(API_CACHE, [("k", ⟨200, "old"⟩)])]).1.completed = true ∧
    (installEvent [("/", NetOutcome.failure)]
        [(API_CACHE, [("k", ⟨200, "old"⟩)])]).2
      = [(API_CACHE, [("k", ⟨200, "old"⟩)]), (STATIC_CACHE, [])] := by
  decide

/-- C3 (amended): when the manifest contains an asset that fails to fetch,
the batch commit rejects, zero entries are committed for the attempted
generation, the rest of the registry is untouched (only the empty static
cache is opened), and `skipWaiting` is skipped — but the install attempt
itself completes successfully, because the handler catches the error and
only logs it. -/
theorem C3_install_error_swallowed (fetches : List (String × NetOutcome))
    (reg : Registry) (asset : String)
    (h : (asset, NetOutcome.failure) ∈ fetches) :
    installEvent fetches reg =
      ({ completed := true, skipWaiting := false },
        cachesOpen reg STATIC_CACHE) := by
  simp [installEvent, addAllEntries_eq_none fetches asset h]

/-- C3 witness: the amended install behavior at a one-asset manifest whose
fetch rejects, over an empty registry. -/
theorem C3_witness :
    installEvent [("/", NetOutcome.failure)] [] =
      ({ completed := true, skipWaiting := false },
        cachesOpen [] STATIC_CACHE) :=
  C3_install_error_swallowed [("/", NetOutcome.failure)] [] "/"
    (List.mem_cons_self _ _)

/-- C4: when the API strategy's fetch is aborted by the timeout controller
and a cached copy for the key exists, the strategy returns that cached copy
(and writes nothing); when the fetch is aborted or rejected and no cached
copy exists, the strategy throws instead of returning a response. -/
theorem C4_timeout_falls_back_to_cache (reg : Registry)
    (cacheName key : String) :
    (∀ cached, cachesMatch reg key = some cached →
      networkFirstWithTimeout NetOutcome.timeout reg cacheName key
        = (some cached, reg)) ∧
    (cachesMatch reg key = none →
      networkFirstWithTimeout NetOutcome.timeout reg cacheName key
          = (none, reg) ∧
      networkFirstWithTimeout NetOutcome.failure reg cacheName key
          = (none, reg)) := by
  constructor
  · intro cached h
    simp [networkFirstWithTimeout, h]
  · intro h
    constructor <;> simp [networkFirstWithTimeout, h]

/-- C7: the activate sequence is idempotent — a second run over the state
the first run left behind deletes nothing and changes nothing. -/
theorem C7_activate_idempotent (reg : Registry) :
    activateEvent (activateEvent reg) = activateEvent reg ∧
    staleCaches (activateEvent reg) = [] := by
  constructor
  · simp [activateEvent, List.filter_filter]
  · rw [staleCaches, List.filter_eq_nil_iff]
    intro n hn
    simp only [activateEvent, List.mem_map, List.mem_filter] at hn
    obtain ⟨c, ⟨_, hcur⟩, rfl⟩ := hn
    simp [hcur]

/-- Entries of `storePut s k r` come from `s` or are the written pair. -/
theorem mem_storePut {s : Store} {k : String} {r : Resp} {e : String × Resp}
    (he : e ∈ storePut s k r) : e ∈ s ∨ e = (k, r) := by
  unfold storePut at he
  by_cases hk : s.any (fun e => e.1 == k) = true
  · rw [if_pos hk] at he
    rcases List.mem_map.mp he with ⟨e₀, he₀, hmap⟩
    by_cases h0 : (e₀.1 == k) = true
    · rw [if_pos h0] at hmap
      exact Or.inr hmap.symm
    · rw [if_neg h0] at hmap
      exact Or.inl (hmap ▸ he₀)
  · rw [if_neg hk] at he
    rcases List.mem_append.mp he with h | h
    · exact Or.inl h
    · right
      simpa using h
/-- Entries of any cache of `cachePut reg name k r` come from the same-named
cache of `reg` or are the written pair (for C5). -/
theorem mem_cachePut {reg : Registry} {name k : String} {r : Resp}
    {c : String × Store} (hc : c ∈ cachePut reg name k r)
    {e : String × Resp} (he : e ∈ c.2) :
    (∃ c₀, c₀ ∈ reg ∧ c₀.1 = c.1 ∧ e ∈ c₀.2) ∨ e = (k, r) := by
  unfold cachePut at hc
  rcases List.mem_map.mp hc with ⟨c₁, hc₁, hmap⟩
  have hc₁reg : c₁ ∈ reg ∨ c₁ = (name, ([] : Store)) := by
    unfold cachesOpen at hc₁
    by_cases hex : reg.any (fun c => c.1 == name) = true
    · rw [if_pos hex] at hc₁
      exact Or.inl hc₁
    · rw [if_neg hex] at hc₁
      rcases List.mem_append.mp hc₁ with h | h
      · exact Or.inl h
      · right
        simpa using h
  by_cases h1 : (c₁.1 == name) = true
  · rw [if_pos h1] at hmap
    rcases hc₁reg with hin | hnew
    · have he' : e ∈ storePut c₁.2 k r := by
        rw [← hmap] at he
        exact he
      rcases mem_storePut he' with h | h
      · exact Or.inl ⟨c₁, hin, by rw [← hmap], h⟩
      · exact Or.inr h
    · have he' : e ∈ storePut ([] : Store) k r := by
        rw [← hmap] at he
        simpa [hnew] using he
      rcases mem_storePut he' with h | h
      · cases h
      · exact Or.inr h
  · rw [if_neg h1] at hmap
    rcases hc₁reg with hin | hnew
    · exact Or.inl ⟨c₁, hin, by rw [← hmap], by rw [← hmap] at he; exact he⟩
    · exfalso
      apply h1
      rw [hnew]
      simp
theorem storedOnlyOk_refl (reg : Registry) : storedOnlyOk reg reg :=
  fun c hc _e he => Or.inl ⟨c, hc, rfl, he⟩

theorem storedOnlyOk_cachePut (reg : Registry) (name k : String) {r : Resp}
    (hr : r.ok = true) : storedOnlyOk reg (cachePut reg name k r) := by
  intro c hc e he
  rcases mem_cachePut hc he with h | h
  · exact Or.inl h
  · right
    rw [h]
    exact hr
/-- C5: over all fetch strategies and the background refresh, a response is
written into a cache only when `response.ok` holds — every entry of the
resulting registry is either a pre-existing entry of the same cache or a
snapshot of a successful response. -/
theorem C5_only_ok_stored (net : NetOutcome) (reg : Registry)
    (cacheName key : String) :
    storedOnlyOk reg (networkFirstWithTimeout net reg cacheName key).2 ∧
    storedOnlyOk reg (cacheFirstWithNetworkFallback net reg cacheName key).2 ∧
    storedOnlyOk reg (networkFirstWithCacheFallback net reg cacheName key).2 ∧
    storedOnlyOk reg (updateCacheInBackground net reg cacheName key) := by
  have hput : ∀ resp : Resp, resp.ok = true →
      storedOnlyOk reg (cachePut reg cacheName key resp) :=
    fun resp h => storedOnlyOk_cachePut reg cacheName key h
  cases net with
  | success resp =>
    cases hok : resp.ok <;>
      cases hm : cachesMatch reg key <;>
        simp only [networkFirstWithTimeout, cacheFirstWithNetworkFallback,
          networkFirstWithCacheFallback, updateCacheInBackground, hok, hm,
          Bool.false_eq_true, if_false, if_true] <;>
      exact ⟨by first | exact storedOnlyOk_refl reg | exact hput resp hok,
        by first | exact storedOnlyOk_refl reg | exact hput resp hok,
        by first | exact storedOnlyOk_refl reg | exact hput resp hok,
        by first | exact storedOnlyOk_refl reg | exact hput resp hok⟩
  | failure =>
    cases hm : cachesMatch reg key <;>
      simp only [networkFirstWithTimeout, cacheFirstWithNetworkFallback,
        networkFirstWithCacheFallback, updateCacheInBackground, hm] <;>
      exact ⟨storedOnlyOk_refl reg, storedOnlyOk_refl reg,
        storedOnlyOk_refl reg, storedOnlyOk_refl reg⟩
  | timeout =>
    cases hm : cachesMatch reg key <;>
      simp only [networkFirstWithTimeout, cacheFirstWithNetworkFallback,
        networkFirstWithCacheFallback, updateCacheInBackground, hm] <;>
      exact ⟨storedOnlyOk_refl reg, storedOnlyOk_refl reg,
        storedOnlyOk_refl reg, storedOnlyOk_refl reg⟩

/-- A value the API strategy returns is the network's response or a global
cache match. -/
theorem nfwt_value (net : NetOutcome) (reg : Registry) (cacheName key : String)
    (v : Resp)
    (h : (networkFirstWithTimeout net reg cacheName key).1 = some v) :
    net = NetOutcome.success v ∨ cachesMatch reg key = some v := by
  cases net with
  | success resp =>
    left
    cases hok : resp.ok <;> simp [networkFirstWithTimeout, hok] at h <;>
      rw [h]
  | failure =>
    right
    cases hm : cachesMatch reg key <;>
      simp [networkFirstWithTimeout, hm] at h
    rw [h]
  | timeout =>
    right
    cases hm : cachesMatch reg key <;>
      simp [networkFirstWithTimeout, hm] at h
    rw [h]
/-- If the API strategy throws, it has written nothing. -/
theorem nfwt_none (net : NetOutcome) (reg : Registry) (cacheName key : String)
    (h : (networkFirstWithTimeout net reg cacheName key).1 = none) :
    networkFirstWithTimeout net reg cacheName key = (none, reg) := by
  cases net with
  | success resp => cases hok : resp.ok <;> simp [networkFirstWithTimeout, hok] at h
  | failure =>
    cases hm : cachesMatch reg key <;> simp [networkFirstWithTimeout, hm] at h ⊢
  | timeout =>
    cases hm : cachesMatch reg key <;> simp [networkFirstWithTimeout, hm] at h ⊢
/-- A value the cache-first strategy returns is the network's response or a
global cache match. -/
theorem cfnf_value (net : NetOutcome) (reg : Registry) (cacheName key : String)
    (v : Resp)
    (h : (cacheFirstWithNetworkFallback net reg cacheName key).1 = some v) :
    net = NetOutcome.success v ∨ cachesMatch reg key = some v := by
  cases hm : cachesMatch reg key with
  | some cached =>
    right
    simp [cacheFirstWithNetworkFallback, hm] at h
    rw [h]
  | none =>
    left
    cases net with
    | success resp =>
      cases hok : resp.ok <;>
        simp [cacheFirstWithNetworkFallback, hm, hok] at h <;> rw [h]
    | failure => simp [cacheFirstWithNetworkFallback, hm] at h
    | timeout => simp [cacheFirstWithNetworkFallback, hm] at h
/-- If the cache-first strategy throws, it has written nothing. -/
theorem cfnf_none (net : NetOutcome) (reg : Registry) (cacheName key : String)
    (h : (cacheFirstWithNetworkFallback net reg cacheName key).1 = none) :
    cacheFirstWithNetworkFallback net reg cacheName key = (none, reg) := by
  cases hm : cachesMatch reg key with
  | some cached => simp [cacheFirstWithNetworkFallback, hm] at h
  | none =>
    cases net with
    | success resp =>
      cases hok : resp.ok <;> simp [cacheFirstWithNetworkFallback, hm, hok] at h
    | failure => simp [cacheFirstWithNetworkFallback, hm]
    | timeout => simp [cacheFirstWithNetworkFallback, hm]
/-- A value the document strategy returns is the network's response or a
global cache match. -/
theorem nfcf_value (net : NetOutcome) (reg : Registry) (cacheName key : String)
    (v : Resp)
    (h : (networkFirstWithCacheFallback net reg cacheName key).1 = some v) :
    net = NetOutcome.success v ∨ cachesMatch reg key = some v := by
  cases net with
  | success resp =>
    left
    cases hok : resp.ok <;>
      simp [networkFirstWithCacheFallback, hok] at h <;> rw [h]
  | failure =>
    right
    cases hm : cachesMatch reg key <;>
      simp [networkFirstWithCacheFallback, hm] at h
    rw [h]
  | timeout =>
    right
    cases hm : cachesMatch reg key <;>
      simp [networkFirstWithCacheFallback, hm] at h
    rw [h]
/-- If the document strategy throws, it has written nothing. -/
theorem nfcf_none (net : NetOutcome) (reg : Registry) (cacheName key : String)
    (h : (networkFirstWithCacheFallback net reg cacheName key).1 = none) :
    networkFirstWithCacheFallback net reg cacheName key = (none, reg) := by
  cases net with
  | success resp =>
    cases hok : resp.ok <;> simp [networkFirstWithCacheFallback, hok] at h
  | failure =>
    cases hm : cachesMatch reg key <;>
      simp [networkFirstWithCacheFallback, hm] at h ⊢
  | timeout =>
    cases hm : cachesMatch reg key <;>
      simp [networkFirstWithCacheFallback, hm] at h ⊢
/-- The catch-wrapper's result, for any strategy outcome whose value comes
from the network or the global cache and which writes nothing on a throw:
the user receives the network response, a cached response, or the offline
page. -/
theorem respondOrFallback_cases (net : NetOutcome) (reg : Registry)
    (r : Request) (p : Option Resp × Registry)
    (hv : ∀ v, p.1 = some v →
      net = NetOutcome.success v ∨ cachesMatch reg r.url = some v)
    (hn : p.1 = none → p = (none, reg)) :
    (∃ v, net = NetOutcome.success v ∧ (respondOrFallback r p).1 = v) ∨
    (∃ k v, cachesMatch reg k = some v ∧ (respondOrFallback r p).1 = v) ∨
    (respondOrFallback r p).1 = offlinePage := by
  rcases p with ⟨o, regAfter⟩
  cases o with
  | some v =>
    rcases hv v rfl with h | h
    · exact Or.inl ⟨v, h, rfl⟩
    · exact Or.inr (Or.inl ⟨r.url, v, h, rfl⟩)
  | none =>
    have hr : regAfter = reg := congrArg Prod.snd (hn rfl)
    rw [hr]
    have hoff : (∃ k v, cachesMatch reg k = some v ∧
        getOfflineFallback reg r = v) ∨
        getOfflineFallback reg r = offlinePage := by
      unfold getOfflineFallback
      by_cases hd : (r.destination == "document") = true
      · rw [if_pos hd]
        cases hm : cachesMatch reg "/" with
        | some c => exact Or.inl ⟨"/", c, hm, rfl⟩
        | none => exact Or.inr rfl
      · rw [if_neg hd]
        exact Or.inr rfl
    rcases hoff with ⟨k, v, hm, hv'⟩ | hend
    · exact Or.inr (Or.inl ⟨k, v, hm, hv'⟩)
    · exact Or.inr (Or.inr hend)

/-- C6 counterexample: an image request (no document navigation) whose
network fails over an empty cache is answered with the offline page, which
the claim says happens only for document navigations. -/
theorem C6_counterexample :
    cachesMatch [] "https://pics.example/photo.png" = none ∧
    (handleRequest NetOutcome.failure []
      ⟨"https://pics.example/photo.png", "GET", "image", "https:"⟩).1
      = offlinePage := by
  exact ⟨rfl, rfl⟩

/-- C6 (amended): the user never receives a raw error — every request
`handleRequest` serves yields the network's response, a cached copy (for a
document navigation possibly the cached index page), or, when network and
cache are both exhausted, the offline fallback page; the offline page is the
last resort for non-document requests as well. -/
theorem C6_no_raw_error (net : NetOutcome) (reg : Registry) (r : Request) :
    (∃ v, net = NetOutcome.success v ∧ (handleRequest net reg r).1 = v) ∨
    (∃ k v, cachesMatch reg k = some v ∧ (handleRequest net reg r).1 = v) ∨
    (handleRequest net reg r).1 = offlinePage := by
  unfold handleRequest
  split_ifs <;>
    first
    | exact respondOrFallback_cases net reg r _
        (fun v hv => nfwt_value net reg _ r.url v hv)
        (fun hn => nfwt_none net reg _ r.url hn)
    | exact respondOrFallback_cases net reg r _
        (fun v hv => cfnf_value net reg _ r.url v hv)
        (fun hn => cfnf_none net reg _ r.url hn)

/-- C8: a POST with valid JSON carrying name, url and pushType "telegram",
with both Telegram credentials configured and the provider call succeeding,
issues exactly one outbound POST — to the Telegram send-message endpoint,
with a message text containing the submitted name and url — and answers 200
with the ok body. -/
theorem C8_telegram_push (name url : String) (logo desc : Option String)
    (tok cid : String) (fw : Option String) (hn : name ≠ "") (hu : url ≠ "")
    (ht : tok ≠ "") (hc : cid ≠ "") :
    workerFetch "POST"
        (BodyData.obj (some name) (some url) logo desc (some "telegram"))
        ⟨some tok, some cid, fw⟩ true =
      ({ status := 200, body := some "\x7b\"ok\":true\x7d" },
        [{ url := "https://api.telegram.org/bot" ++ tok ++ "/sendMessage",
           method := "POST",
           payload := PushPayload.telegram cid
             (friendLinkMsg name url logo desc) }]) ∧
    strContains (friendLinkMsg name url logo desc) name ∧
    strContains (friendLinkMsg name url logo desc) url := by
  refine ⟨?_, ?_, ?_⟩
  · simp [workerFetch, falsy, hn, hu, ht, hc]
  · exact ⟨"【友链申请】\n站点名: ",
      "\n链接: " ++ url ++ "\nLogo: " ++ jsOr logo "无" ++ "\n描述: "
        ++ jsOr desc "无",
      by simp [friendLinkMsg, String.append_assoc]⟩
  · exact ⟨"【友链申请】\n站点名: " ++ name ++ "\n链接: ",
      "\nLogo: " ++ jsOr logo "无" ++ "\n描述: " ++ jsOr desc "无",
      by simp [friendLinkMsg, String.append_assoc]⟩

/-- C8 witness: the Telegram success path at the spec's concrete
submission. -/
theorem C8_witness :
    workerFetch "POST"
        (BodyData.obj (some "Blog") (some "https://x.example") none none
          (some "telegram"))
        ⟨some "123:abc", some "42", none⟩ true =
      ({ status := 200, body := some "\x7b\"ok\":true\x7d" },
        [{ url := "https://api.telegram.org/bot" ++ "123:abc"
              ++ "/sendMessage",
           method := "POST",
           payload := PushPayload.telegram "42"
             (friendLinkMsg "Blog" "https://x.example" none none) }]) ∧
    strContains (friendLinkMsg "Blog" "https://x.example" none none)
      "Blog" ∧
    strContains (friendLinkMsg "Blog" "https://x.example" none none)
      "https://x.example" :=
  C8_telegram_push "Blog" "https://x.example" none none "123:abc" "42" none
    (by decide) (by decide) (by decide) (by decide)

/-- C9: a POST with valid JSON carrying name, url and pushType "feishu",
with the FEISHU_WEBHOOK variable unset, answers 500 with the
configuration-missing message and issues zero outbound requests. -/
theorem C9_feishu_unconfigured (name url : String) (logo desc : Option String)
    (tg tc : Option String) (pushOk : Bool) (hn : name ≠ "") (hu : url ≠ "") :
    workerFetch "POST"
        (BodyData.obj (some name) (some url) logo desc (some "feishu"))
        ⟨tg, tc, none⟩ pushOk =
      ({ status := 500, body := some "飞书配置缺失" }, []) := by
  simp [workerFetch, falsy, hn, hu]

/-- C9 witness: the unconfigured-Feishu path at the spec's concrete
submission. -/
theorem C9_witness :
    workerFetch "POST"
        (BodyData.obj (some "Blog") (some "https://x.example") none none
          (some "feishu"))
        ⟨none, none, none⟩ true =
      ({ status := 500, body := some "飞书配置缺失" }, []) :=
  C9_feishu_unconfigured "Blog" "https://x.example" none none none none true
    (by decide) (by decide)

/-- C10: the static-asset test compares by string suffix against the full
URL, so a cross-origin GET URL that is no declared manifest path and matches
no API or CDN pattern is still classified into the static tier. -/
theorem C10_suffix_overmatch :
    STATIC_ASSETS.contains "https://evil.example/manifest.json" = false ∧
    isAPIRequest "https://evil.example/manifest.json" = false ∧
    isCDNRequest "https://evil.example/manifest.json" = false ∧
    classify ⟨"https://evil.example/manifest.json", "GET", "image",
      "https:"⟩ = Tier.staticCacheFirst := by
  decide
